import Mathlib

/-!
Shallow embedding of the job-listing normalizer in `src/app.py`
(class `JobsFetcher` and the MCP tool layer).

Python strings are modelled as `List Char`; Python `None`-able values as
`Option`; the upstream JSON shapes as small inductive types capturing
exactly the distinctions the source code inspects (`isinstance(x, dict)`
versus scalar, presence versus absence of keys).  The HTTP layer is
abstracted as an explicit outcome value; the `try/except` boundary of
`search_jobs` is modelled with `Except`.
-/

namespace JobsServer

/-- Python strings, as lists of characters. -/
abbrev Str := List Char

/-- Coerce a Lean string literal to the model's string type. -/
def str (s : String) : Str := s.data

/-- Python `str.lower()` (ASCII case mapping, which covers every keyword
the source compares against). -/
def lowerStr (s : Str) : Str := s.map Char.toLower

/-- Whitespace characters recognised by Python `str.strip()` (ASCII part). -/
def isSpaceChar (c : Char) : Bool :=
  c == ' ' || c == '\t' || c == '\n' || c == '\r' ||
    c == Char.ofNat 11 || c == Char.ofNat 12

/-- Python `str.strip()`: drop leading and trailing whitespace. -/
def pyStrip (s : Str) : Str :=
  ((s.dropWhile isSpaceChar).reverse.dropWhile isSpaceChar).reverse

/-- Python substring test `needle in hay`. -/
def isSubstr (needle : Str) : Str → Bool
  | [] => needle.isEmpty
  | c :: t => needle.isPrefixOf (c :: t) || isSubstr needle t

/-- Insert `,` after every third character of a reversed digit list
(helper for the Python `{n:,}` format specifier). -/
def commaRev : List Char → List Char
  | a :: b :: c :: d :: rest => a :: b :: c :: ',' :: commaRev (d :: rest)
  | l => l

/-- Python `f"{n:,}"` for a natural number: decimal digits grouped in
threes with comma separators. -/
def commaFmt (n : Nat) : Str :=
  (commaRev (Nat.toDigits 10 n).reverse).reverse

/-- Truthiness of an optional salary bound (`None` and `0` are falsy in
Python; Adzuna salary bounds are non-negative numbers). -/
def optTruthy : Option Nat → Bool
  | none => false
  | some n => n != 0

/-- `JobsFetcher._format_salary` from `src/app.py` (the branches test
Python truthiness of `min_salary` / `max_salary`). -/
def format_salary (min_salary max_salary : Option Nat) : Str :=
  if optTruthy min_salary && optTruthy max_salary then
    str "₹" ++ commaFmt (min_salary.getD 0) ++ str " - ₹" ++ commaFmt (max_salary.getD 0)
  else if optTruthy min_salary then
    str "₹" ++ commaFmt (min_salary.getD 0) ++ str "+"
  else if optTruthy max_salary then
    str "Up to ₹" ++ commaFmt (max_salary.getD 0)
  else
    str "Not specified"

/-- A non-dict Python value as it can appear in an upstream JSON field:
a string, an integer, or `null`. -/
inductive PyScalar where
  | pstr (s : Str)
  | pint (n : Int)
  | pnone
deriving DecidableEq

/-- Python `str(v)` on a scalar. -/
def PyScalar.toStr : PyScalar → Str
  | .pstr s => s
  | .pint n => (toString n).data
  | .pnone => str "None"

/-- Python truthiness of a scalar. -/
def PyScalar.truthy : PyScalar → Bool
  | .pstr s => !s.isEmpty
  | .pint n => n != 0
  | .pnone => false

/-- The upstream `company` field: either a JSON object (of which the code
reads `display_name`) or a scalar. -/
inductive CompanyVal where
  | obj (display_name : Option Str)
  | scalar (v : PyScalar)
deriving DecidableEq

/-- The upstream `location` field: either a JSON object (of which the code
reads `display_name` and `area`) or a scalar. -/
inductive LocationVal where
  | obj (display_name : Option Str) (area : Option (List Str))
  | scalar (v : PyScalar)
deriving DecidableEq

/-- The upstream `category` field: either a JSON object (of which the code
reads `label`) or a scalar. -/
inductive CategoryVal where
  | obj (label : Option Str)
  | scalar (v : PyScalar)
deriving DecidableEq

/-- One raw upstream result item, restricted to the keys
`JobsFetcher._parse_job_results` reads; `none` models an absent key. -/
structure RawJob where
  title : Option Str
  company : Option CompanyVal
  location : Option LocationVal
  category : Option CategoryVal
  description : Option Str
  created : Option Str
  id : Option Str
  redirect_url : Option Str
  salary_min : Option Nat
  salary_max : Option Nat
  contract_type : Option Str
  contract_time : Option Str
deriving DecidableEq

/-- The canonical job record built by `_parse_job_results`
(the keys of the `job_info` dict literal in `src/app.py`). -/
structure Record where
  title : Str
  company : Str
  location : Str
  description : Str
  posted_date : Str
  job_id : Str
  apply_url : Str
  salary : Str
  contract_type : Str
  contract_time : Str
  remote : Bool
  category : Str
  is_internship : Bool
  source : Str
deriving DecidableEq

/-- Company resolution in `_parse_job_results`: `job.get("company", {})`,
then `display_name` with default `"Unknown Company"` for a dict, else
`str(company) if company else "Unknown Company"`. -/
def resolve_company (company : Option CompanyVal) : Str :=
  match company.getD (.obj none) with
  | .obj display_name => display_name.getD (str "Unknown Company")
  | .scalar v => if v.truthy then v.toStr else str "Unknown Company"

/-- Location resolution in `_parse_job_results`: for a dict, start from
`display_name` (default `""`), and when `area` is non-empty with more than
one entry override with `f"{area[-1]}, {area[-2]}"` (the guarded
`len(area) >= 2` re-check and its dead `area[0]` branch are kept); for a
scalar, `str(location) if location else ""`. -/
def resolve_location (location : Option LocationVal) : Str :=
  match location.getD (.obj none none) with
  | .obj display_name area =>
      let location_str := display_name.getD []
      let areaL := area.getD []
      if !areaL.isEmpty && decide (1 < areaL.length) then
        if 2 ≤ areaL.length then
          areaL[areaL.length - 1]?.getD [] ++ str ", " ++
            areaL[areaL.length - 2]?.getD []
        else areaL[0]?.getD []
      else location_str
  | .scalar v => if v.truthy then v.toStr else []

/-- Category resolution in `_parse_job_results`: `label` (default `""`)
for a dict, else `""`. -/
def resolve_category (category : Option CategoryVal) : Str :=
  match category.getD (.obj none) with
  | .obj label => label.getD []
  | .scalar _ => []

/-- The internship heuristic: `any(keyword in title for keyword in
["intern", "trainee", "apprentice"])` over the lower-cased raw title. -/
def intern_check (rawTitle : Str) : Bool :=
  let title := lowerStr rawTitle
  isSubstr (str "intern") title || isSubstr (str "trainee") title ||
    isSubstr (str "apprentice") title

/-- The remote heuristic: `"remote" in location_str.lower() if location_str
else False`. -/
def remote_check (location_str : Str) : Bool :=
  if location_str.isEmpty then false
  else isSubstr (str "remote") (lowerStr location_str)

/-- The per-item body of `_parse_job_results`: one raw upstream item to one
canonical record. -/
def parse_job (job : RawJob) : Record :=
  { title := job.title.getD []
    company := resolve_company job.company
    location := resolve_location job.location
    description := job.description.getD []
    posted_date := job.created.getD []
    job_id := job.id.getD []
    apply_url := job.redirect_url.getD []
    salary := format_salary job.salary_min job.salary_max
    contract_type := job.contract_type.getD []
    contract_time := job.contract_time.getD []
    remote := remote_check (resolve_location job.location)
    category := resolve_category job.category
    is_internship := intern_check (job.title.getD [])
    source := str "Adzuna" }

/-- A decoded upstream response body; `results` is `none` when the
`"results"` key is absent. -/
structure ApiResponse where
  results : Option (List RawJob)
deriving DecidableEq

/-- The accumulating loop of `_parse_job_results` (`jobs.append(job_info)`
over the raw results). -/
def parse_loop (acc : List Record) : List RawJob → List Record
  | [] => acc
  | job :: rest => parse_loop (acc ++ [parse_job job]) rest

/-- `JobsFetcher._parse_job_results`: `data.get("results", [])`, then one
record appended per raw item. -/
def parse_job_results (data : ApiResponse) : List Record :=
  parse_loop [] (data.results.getD [])

/-- The record's dict shape: the `job_info` literal of `src/app.py` as an
association list (string values tagged `fs`, booleans `fb`). -/
inductive FieldVal where
  | fs (v : Str)
  | fb (v : Bool)
deriving DecidableEq

/-- The `job_info` dict literal: key/value pairs in source order. -/
def Record.toDict (r : Record) : List (Str × FieldVal) :=
  [(str "title", .fs r.title),
   (str "company", .fs r.company),
   (str "location", .fs r.location),
   (str "description", .fs r.description),
   (str "posted_date", .fs r.posted_date),
   (str "job_id", .fs r.job_id),
   (str "apply_url", .fs r.apply_url),
   (str "salary", .fs r.salary),
   (str "contract_type", .fs r.contract_type),
   (str "contract_time", .fs r.contract_time),
   (str "remote", .fb r.remote),
   (str "category", .fs r.category),
   (str "is_internship", .fb r.is_internship),
   (str "source", .fs r.source)]

/-- Outcome of the one HTTP GET issued by `search_jobs`:
`transport_error` models an exception raised by `client.get` itself
(connection failure, timeout); otherwise a response arrives with a status
code and a body that either decodes to JSON (`some data`) or does not
(`none`, making `response.json()` raise). -/
inductive HttpResult where
  | transport_error
  | response (status : Nat) (body : Option ApiResponse)
deriving DecidableEq

/-- The `try` block of `JobsFetcher.search_jobs`: GET, then
`raise_for_status()` (raises on 4xx/5xx, i.e. status ≥ 400), then
`response.json()`, then `_parse_job_results`.  An `error` value is a raised
exception escaping the block. -/
def search_jobs_body (h : HttpResult) : Except Unit (List Record) :=
  match h with
  | .transport_error => .error ()
  | .response status body =>
      if 400 ≤ status then .error ()
      else
        match body with
        | none => .error ()
        | some data => .ok (parse_job_results data)

/-- `JobsFetcher.search_jobs`: the `try/except Exception: return []`
boundary around `search_jobs_body`. -/
def search_jobs (h : HttpResult) : List Record :=
  match search_jobs_body h with
  | .ok jobs => jobs
  | .error _ => []

/-- The company-name match of `search_by_company`:
`company_lower == job_company or company_lower in job_company or
job_company in company_lower`. -/
def company_match (company_lower job_company : Str) : Bool :=
  company_lower == job_company || isSubstr company_lower job_company ||
    isSubstr job_company company_lower

/-- The filtering loop of `search_by_company`: append each matching job,
and break as soon as `len(filtered_jobs) >= results_per_page` (checked
right after an append). -/
def filter_loop (p : Record → Bool) (results_per_page : Nat)
    (acc : List Record) : List Record → List Record
  | [] => acc
  | job :: rest =>
      if p job then
        if results_per_page ≤ acc.length + 1 then acc ++ [job]
        else filter_loop p results_per_page (acc ++ [job]) rest
      else filter_loop p results_per_page acc rest

/-- `JobsFetcher.search_by_company`: fetch `results_per_page * 3` results
via the underlying search (abstracted as `searchFn`, a function of the
requested page size), then keep jobs whose normalized company name matches
the normalized query, stopping at `results_per_page` matches. -/
def search_by_company (searchFn : Nat → List Record) (company_name : Str)
    (results_per_page : Nat) : List Record :=
  let all_jobs := searchFn (results_per_page * 3)
  let company_lower := pyStrip (lowerStr company_name)
  filter_loop
    (fun job => company_match company_lower (pyStrip (lowerStr job.company)))
    results_per_page [] all_jobs

/-- The query rewrite of the `search_remote_jobs` tool:
`f"{keywords} remote" if keywords else "remote"`. -/
def remote_search_terms (keywords : Str) : Str :=
  if !keywords.isEmpty then keywords ++ str " remote" else str "remote"

/-- The `search_remote_jobs` tool body: search with the rewritten keywords
and location `"Remote"` (the underlying search is abstracted as `searchFn`,
a function of keywords and location), then keep only records whose `remote`
field is true. -/
def search_remote_jobs (searchFn : Str → Str → List Record)
    (keywords : Str) : List Record :=
  let results := searchFn (remote_search_terms keywords) (str "Remote")
  results.filter (fun job => job.remote)

/-! Sample inputs used by witnesses. -/

/-- A raw item with every key absent. -/
def rawJobBase : RawJob :=
  { title := none, company := none, location := none, category := none,
    description := none, created := none, id := none, redirect_url := none,
    salary_min := none, salary_max := none, contract_type := none,
    contract_time := none }

/-- A raw item titled "Internal Auditor" (partial-word internship match). -/
def rawInternal : RawJob := { rawJobBase with title := some (str "Internal Auditor") }

/-! Helper lemmas. -/

/-- The conditional remote heuristic agrees with the unconditional
substring test, because no non-empty needle is a substring of `""`. -/
theorem remote_check_eq (l : Str) :
    remote_check l = isSubstr (str "remote") (lowerStr l) := by
  cases l with
  | nil => rfl
  | cons c t => rfl

/-! Claim theorems. -/

/-- Claim C1: whenever the HTTP request, the status check, or the JSON
decode fails (the `try` body of `search_jobs` raises), `search_jobs`
returns the empty list; the exception never propagates to the caller. -/
theorem search_jobs_fail_soft (h : HttpResult) :
    (h = .transport_error → search_jobs h = [])
    ∧ (∀ status body, h = .response status body → 400 ≤ status →
        search_jobs h = [])
    ∧ (∀ status, h = .response status none → search_jobs h = [])
    ∧ ((∃ e, search_jobs_body h = .error e) → search_jobs h = []) := by
  refine ⟨?_, ?_, ?_, ?_⟩
  · rintro rfl; rfl
  · rintro status body rfl hs
    simp [search_jobs, search_jobs_body, hs]
  · rintro status rfl
    by_cases hs : 400 ≤ status <;> simp [search_jobs, search_jobs_body, hs]
  · rintro ⟨e, he⟩
    simp [search_jobs, he]

/-- Witness for C1: each of the three failure modes, at a concrete input,
yields the empty list. -/
theorem search_jobs_fail_soft_witness :
    search_jobs .transport_error = []
    ∧ search_jobs (.response 500 (some { results := some [rawJobBase] })) = []
    ∧ search_jobs (.response 200 none) = [] :=
  ⟨(search_jobs_fail_soft .transport_error).1 rfl,
   (search_jobs_fail_soft _).2.1 500 (some { results := some [rawJobBase] })
     rfl (by decide),
   (search_jobs_fail_soft _).2.2.1 200 rfl⟩

/-- Counterexample to C2 as stated: with both bounds present but the
minimum equal to 0 (falsy in Python), the code takes the "only max"
branch, not the "both bounds" branch. -/
theorem format_salary_zero_min_counterexample :
    format_salary (some 0) (some 80000) = str "Up to ₹80,000"
    ∧ format_salary (some 0) (some 80000) ≠ str "₹0 - ₹80,000" := by
  constructor
  · rfl
  · decide

/-- Claim C2 (amended): `format_salary` branches on Python truthiness of
the bounds (present and non-zero), not bare presence: both truthy →
"<CUR><min> - <CUR><max>" with thousands separators; only min truthy →
"<CUR><min>+"; only max truthy → "Up to <CUR><max>"; neither →
"Not specified" (currency symbol ₹). -/
theorem format_salary_cases (mn mx : Option Nat) :
    (optTruthy mn = true → optTruthy mx = true →
      format_salary mn mx =
        str "₹" ++ commaFmt (mn.getD 0) ++ str " - ₹" ++ commaFmt (mx.getD 0))
    ∧ (optTruthy mn = true → optTruthy mx = false →
      format_salary mn mx = str "₹" ++ commaFmt (mn.getD 0) ++ str "+")
    ∧ (optTruthy mn = false → optTruthy mx = true →
      format_salary mn mx = str "Up to ₹" ++ commaFmt (mx.getD 0))
    ∧ (optTruthy mn = false → optTruthy mx = false →
      format_salary mn mx = str "Not specified") := by
  refine ⟨?_, ?_, ?_, ?_⟩ <;> intro h1 h2 <;> simp [format_salary, h1, h2]

/-- Witness for C2: the two-sided case at (50000, 80000). -/
theorem format_salary_cases_witness :
    format_salary (some 50000) (some 80000) =
      str "₹" ++ commaFmt ((some 50000 : Option Nat).getD 0) ++ str " - ₹" ++
        commaFmt ((some 80000 : Option Nat).getD 0) :=
  (format_salary_cases (some 50000) (some 80000)).1 (by decide) (by decide)

/-- Claim C3: `is_internship` is true iff the lower-cased title contains
"intern", "trainee" or "apprentice" as a substring, and it depends on the
title field alone. -/
theorem is_internship_title_substring (j : RawJob) :
    ((parse_job j).is_internship = true ↔
      (isSubstr (str "intern") (lowerStr (j.title.getD [])) = true
        ∨ isSubstr (str "trainee") (lowerStr (j.title.getD [])) = true
        ∨ isSubstr (str "apprentice") (lowerStr (j.title.getD [])) = true))
    ∧ ∀ j2 : RawJob, j2.title = j.title →
        (parse_job j2).is_internship = (parse_job j).is_internship := by
  constructor
  · show intern_check (j.title.getD []) = true ↔ _
    simp [intern_check, Bool.or_eq_true, or_assoc]
  · intro j2 ht
    show intern_check (j2.title.getD []) = intern_check (j.title.getD [])
    rw [ht]

/-- Witness for C3: the naive substring rule marks "Internal Auditor" as
an internship. -/
theorem is_internship_title_substring_witness :
    (parse_job rawInternal).is_internship = true :=
  (is_internship_title_substring rawInternal).1.mpr (Or.inl (by decide))

/-- Claim C4: `remote` is true iff the lower-cased resolved location
contains "remote"; in particular it is false when the resolved location is
empty. -/
theorem remote_location_substring (j : RawJob) :
    ((parse_job j).remote = true ↔
      isSubstr (str "remote") (lowerStr (parse_job j).location) = true)
    ∧ ((parse_job j).location = [] → (parse_job j).remote = false) := by
  have hl : (parse_job j).remote = remote_check (resolve_location j.location) := rfl
  have hloc : (parse_job j).location = resolve_location j.location := rfl
  constructor
  · rw [hl, hloc, remote_check_eq]
  · intro he
    rw [hloc] at he
    rw [hl, he]
    rfl

/-- Witness for C4: the all-defaults item resolves to an empty location,
hence is not remote. -/
theorem remote_location_substring_witness :
    (parse_job rawJobBase).remote = false :=
  (remote_location_substring rawJobBase).2 rfl

/-- A raw item whose company is the scalar string "Acme". -/
def rawAcme : RawJob :=
  { rawJobBase with company := some (.scalar (.pstr (str "Acme"))) }

/-- A raw item whose location is the scalar string "Remote". -/
def rawRemote : RawJob :=
  { rawJobBase with location := some (.scalar (.pstr (str "Remote"))) }

/-- The early-exit filtering loop collects exactly the first
`n - acc.length` matches, provided the accumulator is still short of the
limit. -/
theorem filter_loop_eq (p : Record → Bool) (n : Nat) (l : List Record) :
    ∀ acc : List Record, acc.length < n →
      filter_loop p n acc l = acc ++ (l.filter p).take (n - acc.length) := by
  induction l with
  | nil => intro acc h; simp [filter_loop]
  | cons job rest ih =>
    intro acc h
    cases hp : p job with
    | true =>
      simp only [filter_loop, hp, if_true]
      by_cases hn : n ≤ acc.length + 1
      · have hne : n = acc.length + 1 := Nat.le_antisymm hn h
        rw [if_pos hn]
        simp [List.filter_cons, hp, hne]
      · rw [if_neg hn]
        push_neg at hn
        rw [ih (acc ++ [job]) (by simpa using hn)]
        have h1 : n - acc.length = (n - (acc.length + 1)) + 1 := by omega
        simp only [List.filter_cons, hp, if_true, List.length_append,
          List.length_cons, List.length_nil, Nat.zero_add, h1,
          List.take_succ_cons, List.append_assoc, List.singleton_append]
    | false =>
      simp only [filter_loop, hp, Bool.false_eq_true, if_false]
      rw [ih acc h]
      simp [List.filter_cons, hp]

/-- Counterexample to C5 as stated: with `results_per_page = 0` the break
is only checked after a first append, so one matching record is returned,
exceeding the claimed `results_per_page` bound. -/
theorem search_by_company_zero_pagesize_counterexample :
    (search_by_company (fun _ => [parse_job rawAcme]) (str "acme") 0).length = 1
    ∧ ¬ (search_by_company (fun _ => [parse_job rawAcme])
          (str "acme") 0).length ≤ 0 := by
  have h : (search_by_company (fun _ => [parse_job rawAcme])
      (str "acme") 0).length = 1 := rfl
  exact ⟨h, by rw [h]; omega⟩

/-- Claim C5 (amended): for `results_per_page ≥ 1`, `search_by_company` is
the first `results_per_page` elements, in upstream order, of the underlying
search result (requested with page size `results_per_page * 3`) filtered by
the normalized equals/contains/contained company test; hence at most
`results_per_page` records (when `results_per_page = 0`, a single matching
record can still be returned, as the counterexample shows). -/
theorem search_by_company_take_filter (f : Nat → List Record) (c : Str)
    (n : Nat) (hn : 1 ≤ n) :
    search_by_company f c n =
      ((f (n * 3)).filter
        (fun job =>
          company_match (pyStrip (lowerStr c))
            (pyStrip (lowerStr job.company)))).take n
    ∧ (search_by_company f c n).length ≤ n := by
  have he := filter_loop_eq
    (fun job =>
      company_match (pyStrip (lowerStr c)) (pyStrip (lowerStr job.company)))
    n (f (n * 3)) [] (by simpa using hn)
  have h1 : search_by_company f c n =
      ((f (n * 3)).filter
        (fun job =>
          company_match (pyStrip (lowerStr c))
            (pyStrip (lowerStr job.company)))).take n := by
    simpa [search_by_company] using he
  refine ⟨h1, ?_⟩
  rw [h1]
  calc (((f (n * 3)).filter _).take n).length ≤ n := by
        rw [List.length_take]; exact Nat.min_le_left _ _

/-- Witness for C5: one matching record, page size 1. -/
theorem search_by_company_take_filter_witness :
    search_by_company (fun _ => [parse_job rawAcme]) (str "acme") 1 =
      (([parse_job rawAcme]).filter
        (fun job =>
          company_match (pyStrip (lowerStr (str "acme")))
            (pyStrip (lowerStr job.company)))).take 1
    ∧ (search_by_company (fun _ => [parse_job rawAcme])
        (str "acme") 1).length ≤ 1 :=
  search_by_company_take_filter (fun _ => [parse_job rawAcme]) (str "acme") 1
    (by decide)

/-- Claim C6: `search_remote_jobs` queries with the keywords augmented by
"remote" and location "Remote", and its output contains only records with
`remote = true`: every upstream record with `remote = false` is discarded,
and nothing outside the upstream result is returned. -/
theorem search_remote_jobs_filtering (f : Str → Str → List Record)
    (kw : Str) :
    (∀ j, j ∈ search_remote_jobs f kw → j.remote = true)
    ∧ (∀ j, j ∈ f (remote_search_terms kw) (str "Remote") →
        j.remote = false → j ∉ search_remote_jobs f kw)
    ∧ (∀ j, j ∈ search_remote_jobs f kw →
        j ∈ f (remote_search_terms kw) (str "Remote")) := by
  refine ⟨?_, ?_, ?_⟩
  · intro j hj
    have hj2 : j ∈ (f (remote_search_terms kw) (str "Remote")).filter
        (fun job => job.remote) := hj
    exact (List.mem_filter.mp hj2).2
  · intro j _ hr hj
    have hj2 : j ∈ (f (remote_search_terms kw) (str "Remote")).filter
        (fun job => job.remote) := hj
    have h3 : j.remote = true := (List.mem_filter.mp hj2).2
    rw [hr] at h3
    exact Bool.false_ne_true h3
  · intro j hj
    have hj2 : j ∈ (f (remote_search_terms kw) (str "Remote")).filter
        (fun job => job.remote) := hj
    exact (List.mem_filter.mp hj2).1

/-- Witness for C6: a non-remote record present in the upstream page is
excluded from the tool's output. -/
theorem search_remote_jobs_filtering_witness :
    parse_job rawJobBase ∉ search_remote_jobs
      (fun _ _ => [parse_job rawRemote, parse_job rawJobBase]) (str "dev") :=
  (search_remote_jobs_filtering
    (fun _ _ => [parse_job rawRemote, parse_job rawJobBase]) (str "dev")).2.1
    (parse_job rawJobBase) (by simp) rfl

/-- Unfolding of `resolve_location` on a JSON-object location whose
`area` key is present. -/
theorem resolve_location_obj (dn : Option Str) (area : List Str) :
    resolve_location (some (.obj dn (some area))) =
      if !area.isEmpty && decide (1 < area.length) then
        if 2 ≤ area.length then
          area[area.length - 1]?.getD [] ++ str ", " ++
            area[area.length - 2]?.getD []
        else area[0]?.getD []
      else dn.getD [] := rfl

/-- Claim C7: for an object-shaped location, the resolved string is the
display-name field, overridden — whenever the area list has at least two
entries — by its last two entries joined as "<last>, <second-to-last>". -/
theorem resolve_location_object_rule (dn : Option Str) (area : List Str) :
    (∀ pre b a, area = pre ++ [b, a] →
      resolve_location (some (.obj dn (some area))) = a ++ str ", " ++ b)
    ∧ (area.length < 2 → ∀ d, dn = some d →
      resolve_location (some (.obj dn (some area))) = d)
    ∧ (∀ d, dn = some d → resolve_location (some (.obj dn none)) = d) := by
  refine ⟨?_, ?_, ?_⟩
  · rintro pre b a rfl
    rw [resolve_location_obj]
    have hc : (!(pre ++ [b, a]).isEmpty &&
        decide (1 < (pre ++ [b, a]).length)) = true := by
      simp
    rw [hc, if_pos rfl, if_pos (by simp)]
    have h1 : (pre ++ [b, a])[(pre ++ [b, a]).length - 1]? = some a := by
      rw [List.getElem?_append_right (by simp)]
      have e1 : (pre ++ [b, a]).length - 1 - pre.length = 1 := by
        simp only [List.length_append, List.length_cons, List.length_nil]
        omega
      rw [e1]
      rfl
    have h2 : (pre ++ [b, a])[(pre ++ [b, a]).length - 2]? = some b := by
      rw [List.getElem?_append_right (by simp)]
      have e2 : (pre ++ [b, a]).length - 2 - pre.length = 0 := by
        simp only [List.length_append, List.length_cons, List.length_nil]
        omega
      rw [e2]
      rfl
    rw [h1, h2]
    rfl
  · intro hlt d hd
    have hc : (!area.isEmpty && decide (1 < area.length)) = false := by
      have h1 : ¬ (1 < area.length) := by omega
      simp [h1]
    simp [resolve_location_obj, hc, hd]
  · rintro d rfl
    rfl

/-- Witness for C7: a three-entry area list overrides the display name. -/
theorem resolve_location_object_rule_witness :
    resolve_location (some (.obj (some (str "Mumbai, Maharashtra, India"))
        (some [str "India", str "Maharashtra", str "Mumbai"]))) =
      str "Mumbai" ++ str ", " ++ str "Maharashtra" :=
  (resolve_location_object_rule (some (str "Mumbai, Maharashtra, India"))
      [str "India", str "Maharashtra", str "Mumbai"]).1
    [str "India"] (str "Maharashtra") (str "Mumbai") rfl

/-- Counterexample to C8 as stated: a present scalar company that is the
empty string is falsy in Python, so the code yields the default
"Unknown Company" instead of the stringified value "". -/
theorem resolve_company_empty_scalar_counterexample :
    resolve_company (some (.scalar (.pstr []))) = str "Unknown Company"
    ∧ PyScalar.toStr (.pstr []) = []
    ∧ resolve_company (some (.scalar (.pstr []))) ≠
        PyScalar.toStr (.pstr []) := by
  refine ⟨rfl, rfl, ?_⟩
  decide

/-- Claim C8 (amended): company resolution — object with display name →
that name; object without it (or absent key) → "Unknown Company"; truthy
scalar → its stringified value; falsy scalar (empty string, zero, null) →
"Unknown Company". -/
theorem resolve_company_cases (c : Option CompanyVal) :
    (∀ d, c = some (.obj (some d)) → resolve_company c = d)
    ∧ (c = some (.obj none) → resolve_company c = str "Unknown Company")
    ∧ (∀ v, c = some (.scalar v) → v.truthy = true →
        resolve_company c = v.toStr)
    ∧ (∀ v, c = some (.scalar v) → v.truthy = false →
        resolve_company c = str "Unknown Company")
    ∧ (c = none → resolve_company c = str "Unknown Company") := by
  refine ⟨?_, ?_, ?_, ?_, ?_⟩
  · rintro d rfl; rfl
  · rintro rfl; rfl
  · rintro v rfl hv; simp [resolve_company, hv]
  · rintro v rfl hv; simp [resolve_company, hv]
  · rintro rfl; rfl

/-- Witness for C8: a truthy scalar company is stringified. -/
theorem resolve_company_cases_witness :
    resolve_company (some (.scalar (.pstr (str "Acme")))) =
      PyScalar.toStr (.pstr (str "Acme")) :=
  (resolve_company_cases (some (.scalar (.pstr (str "Acme"))))).2.2.1
    (.pstr (str "Acme")) rfl (by decide)

/-- Claim C9: every normalized record carries all fourteen schema keys, in
source order, and its `source` field is the constant "Adzuna". -/
theorem parse_job_record_complete (j : RawJob) :
    ((parse_job j).toDict.map Prod.fst =
      [str "title", str "company", str "location", str "description",
       str "posted_date", str "job_id", str "apply_url", str "salary",
       str "contract_type", str "contract_time", str "remote",
       str "category", str "is_internship", str "source"])
    ∧ (parse_job j).toDict.length = 14
    ∧ (parse_job j).source = str "Adzuna" :=
  ⟨rfl, rfl, rfl⟩

/-- The append loop of `_parse_job_results` maps `parse_job` over the raw
items in order. -/
theorem parse_loop_eq (l : List RawJob) :
    ∀ acc : List Record, parse_loop acc l = acc ++ l.map parse_job := by
  induction l with
  | nil => intro acc; simp [parse_loop]
  | cons j rest ih => intro acc; simp [parse_loop, ih]

/-- Claim C10: the normalizer emits exactly one record per raw result
item, in upstream order; the output length equals the raw list length, and
the output is empty when the `results` key is absent. -/
theorem parse_job_results_one_per_item (data : ApiResponse) :
    parse_job_results data = (data.results.getD []).map parse_job
    ∧ (parse_job_results data).length = (data.results.getD []).length
    ∧ (data.results = none → parse_job_results data = []) := by
  have h : parse_job_results data = (data.results.getD []).map parse_job := by
    simpa [parse_job_results] using parse_loop_eq (data.results.getD []) []
  refine ⟨h, ?_, ?_⟩
  · rw [h, List.length_map]
  · intro hn
    rw [h, hn]
    rfl

/-- Witness for C10: an absent `results` key yields the empty list. -/
theorem parse_job_results_one_per_item_witness :
    parse_job_results { results := none } = [] :=
  (parse_job_results_one_per_item { results := none }).2.2 rfl

end JobsServer
